import Mathlib

/-!
Shallow embedding of the `only_null` crate (src/lib.rs).

The crate defines one type, `OnlyNull<T: ?Sized + Pointee>`, storing only the
pointer metadata `meta : T::Metadata` and a zero-sized `PhantomData<*const T>`
marker, together with five conversion functions and one unit error struct.

Modelling choices:
- A pointee type `T` enters the picture only through its metadata type
  `T::Metadata`; we abstract it as a Lean type parameter `M`.  The
  `PhantomData` field is a zero-sized marker with no runtime content and no
  effect on the derived trait impls (its `PartialEq` always answers true, its
  `Hash` writes nothing, its `Default` is the marker), so it is erased.
- A raw pointer `*const T` / `*mut T` under the `ptr_metadata` model is an
  address together with the metadata; the null address is 0.  `*const T` and
  `*mut T` have the same runtime content, so both are modelled by `RawPtr`;
  the const- and mut-flavoured functions of the crate are embedded separately
  because the source has separate impls.
- The metadata types that occur are `()` for ordinary sized pointees, a
  `usize` length for slice pointees, and a vtable handle (`DynMetadata`) for
  trait-object pointees; `Shape` enumerates these three shapes.
- Rust impl headers written `impl<T> ...` carry the implicit `T: Sized`
  bound.  All four pointer-conversion impls of the crate are written that
  way, so each is available exactly for sized pointees; the `...Available`
  predicates record this coverage, translated from the impl headers.
-/

/-- Metadata shape of a pointee type, following Rust's pointee model:
ordinary sized types carry no metadata, slice types carry an element count,
trait-object types carry a vtable handle. -/
inductive Shape
  | sized
  | slice
  | traitObject
deriving DecidableEq

/-- Vtable-identifying metadata of a trait-object pointer (Rust's
`DynMetadata<dyn Trait>`), abstracted as a vtable handle. -/
structure DynMeta where
  vtable : Nat
deriving DecidableEq

/-- The metadata type `T::Metadata` determined by a pointee shape:
`()` for sized pointees, a length for slices, a vtable handle for
trait objects. -/
def Shape.metaTy : Shape → Type
  | .sized => Unit
  | .slice => Nat
  | .traitObject => DynMeta

/-- Whether a pointee of the given shape is `Sized` in Rust: ordinary types
are sized; slice types `[T]` and trait objects `dyn Trait` are unsized. -/
def Shape.isSized : Shape → Bool
  | .sized => true
  | .slice => false
  | .traitObject => false

/-- A raw pointer `*const T` or `*mut T` in Rust's `ptr_metadata` model:
a data address plus the pointee metadata.  `M` stands for `T::Metadata`. -/
structure RawPtr (M : Type) where
  addr : Nat
  meta : M
deriving DecidableEq

/-- Models `ptr.is_null()`: true iff the data address is the null address 0. -/
def RawPtr.isNull {M : Type} (p : RawPtr M) : Bool :=
  p.addr == 0

/-- Models `ptr.to_raw_parts()`: the pair of data address and metadata.
Rust's field access `.1` (zero-indexed, the metadata) is `.2` here. -/
def RawPtr.toRawParts {M : Type} (p : RawPtr M) : Nat × M :=
  (p.addr, p.meta)

/-- Models `core::ptr::null::<T>()` for sized `T`: address 0, unit
metadata. -/
def nullPtr : RawPtr Unit :=
  { addr := 0, meta := () }

/-- Models `core::ptr::null_mut::<T>()` for sized `T`: address 0, unit
metadata. -/
def nullMutPtr : RawPtr Unit :=
  { addr := 0, meta := () }

/-- The struct `OnlyNull<T>` (src/lib.rs lines 17-24): it stores
`meta : T::Metadata` and a zero-sized `PhantomData<*const T>` marker (erased
here).  `M` stands for `T::Metadata`. -/
structure OnlyNull (M : Type) where
  meta : M
deriving DecidableEq

/-- The unit struct `ConvertToOnlyNullError` (src/lib.rs lines 104-106):
a marker error with no fields. -/
structure ConvertToOnlyNullError where
deriving DecidableEq

/-- Models `OnlyNull::null` (src/lib.rs lines 33-38), available when
`T: Pointee<Metadata = ()>`: builds the value with `meta = ()`. -/
def OnlyNull.null : OnlyNull Unit :=
  { meta := () }

/-- Models `OnlyNull::cast::<U>` (src/lib.rs lines 47-55).  The bound
`U: Pointee<Metadata = T::Metadata>` forces `U` to have the same metadata
type `M` as `T`, so in this embedding the cast stays at `M`; the result
reuses `self.meta` unchanged. -/
def OnlyNull.cast {M : Type} (v : OnlyNull M) : OnlyNull M :=
  { meta := v.meta }

/-- Models the body of `<OnlyNull<T> as TryFrom<*const T>>::try_from`
(src/lib.rs lines 77-86): if the pointer is null, build the value from the
metadata component of `to_raw_parts`, else return the marker error.  The
body is generic in the metadata `M`; which pointees the impl covers is
recorded by `tryFromConstAvailable`. -/
def tryFromConst {M : Type} (p : RawPtr M) :
    Except ConvertToOnlyNullError (OnlyNull M) :=
  if p.isNull then
    Except.ok { meta := p.toRawParts.2 }
  else
    Except.error ConvertToOnlyNullError.mk

/-- Models the body of `<OnlyNull<T> as TryFrom<*mut T>>::try_from`
(src/lib.rs lines 92-101), textually identical to the const variant. -/
def tryFromMut {M : Type} (p : RawPtr M) :
    Except ConvertToOnlyNullError (OnlyNull M) :=
  if p.isNull then
    Except.ok { meta := p.toRawParts.2 }
  else
    Except.error ConvertToOnlyNullError.mk

/-- Models `impl<T> From<OnlyNull<T>> for *const T` (src/lib.rs lines 58-64):
the body ignores its argument and returns `core::ptr::null()`.  The impl's
`T` is implicitly `Sized`, so the metadata type is `Unit`. -/
def fromOnlyNullConst (_ : OnlyNull Unit) : RawPtr Unit :=
  nullPtr

/-- Models `impl<T> From<OnlyNull<T>> for *mut T` (src/lib.rs lines 66-72):
the body ignores its argument and returns `core::ptr::null_mut()`. -/
def fromOnlyNullMut (_ : OnlyNull Unit) : RawPtr Unit :=
  nullMutPtr

/-- Coverage of `impl<T> TryFrom<*const T> for OnlyNull<T>` (src/lib.rs
lines 74-87): the impl parameter is written `impl<T>`, hence carries Rust's
implicit `T: Sized` bound, so the impl exists exactly for sized pointee
shapes. -/
def tryFromConstAvailable (s : Shape) : Prop :=
  s.isSized = true

/-- Coverage of `impl<T> TryFrom<*mut T> for OnlyNull<T>` (src/lib.rs
lines 89-102): likewise restricted to sized pointees by the implicit
`Sized` bound on `impl<T>`. -/
def tryFromMutAvailable (s : Shape) : Prop :=
  s.isSized = true

/-- Coverage of `impl<T> From<OnlyNull<T>> for *const T` (src/lib.rs
lines 58-64): sized pointees only (implicit `Sized` bound, and
`core::ptr::null` itself requires a thin pointee). -/
def fromConstAvailable (s : Shape) : Prop :=
  s.isSized = true

/-- Coverage of `impl<T> From<OnlyNull<T>> for *mut T` (src/lib.rs
lines 66-72): sized pointees only. -/
def fromMutAvailable (s : Shape) : Prop :=
  s.isSized = true

/-- Models the derived `PartialEq` of `OnlyNull` (src/lib.rs line 17):
field-wise comparison; the `PhantomData` field always compares equal, so the
result is the comparison of the `meta` fields under `T::Metadata`'s
equality `eqM`. -/
def OnlyNull.beqWith {M : Type} (eqM : M → M → Bool) (a b : OnlyNull M) : Bool :=
  eqM a.meta b.meta

/-- Models the derived `Hash` of `OnlyNull` (src/lib.rs line 17): the fields
are hashed in order into the hasher state; `PhantomData`'s `Hash` impl
writes nothing, so the outgoing state is `T::Metadata`'s hasher `hM`
applied to `meta` and the incoming state. -/
def OnlyNull.hashWith {M : Type} (hM : M → Nat → Nat) (v : OnlyNull M)
    (state : Nat) : Nat :=
  hM v.meta state

/-- Models the derived `Clone`/`Copy` of `OnlyNull` (src/lib.rs line 17):
a copy is a bitwise copy of the value. -/
def OnlyNull.copy {M : Type} (v : OnlyNull M) : OnlyNull M :=
  v

/-- Models the derived `Default` of `OnlyNull` (src/lib.rs line 17): every
field is defaulted; `dM` stands for `<T::Metadata as Default>::default()`
(the `PhantomData` default is the zero-sized marker). -/
def OnlyNull.defaultWith {M : Type} (dM : M) : OnlyNull M :=
  { meta := dM }

theorem tryFromConst_eq {M : Type} (p : RawPtr M) :
    tryFromConst p =
      if p.addr = 0 then Except.ok { meta := p.meta }
      else Except.error ConvertToOnlyNullError.mk := by
  unfold tryFromConst RawPtr.isNull RawPtr.toRawParts
  by_cases h : p.addr = 0 <;> simp [h]

theorem tryFromMut_eq {M : Type} (p : RawPtr M) :
    tryFromMut p =
      if p.addr = 0 then Except.ok { meta := p.meta }
      else Except.error ConvertToOnlyNullError.mk := by
  unfold tryFromMut RawPtr.isNull RawPtr.toRawParts
  by_cases h : p.addr = 0 <;> simp [h]

/-- C1: for every raw pointer input (const or mut variant), `try_from`
returns `Ok` carrying the input pointer's metadata iff the input's address
is null, returns the marker error `ConvertToOnlyNullError` iff the address
is non-null, and the error type has a single value carrying no data. -/
theorem c1_tryFrom_ok_iff_null (M : Type) (p : RawPtr M) :
    (tryFromConst p = Except.ok { meta := p.meta } ↔ p.addr = 0)
    ∧ (tryFromConst p = Except.error ConvertToOnlyNullError.mk ↔ p.addr ≠ 0)
    ∧ (tryFromMut p = Except.ok { meta := p.meta } ↔ p.addr = 0)
    ∧ (tryFromMut p = Except.error ConvertToOnlyNullError.mk ↔ p.addr ≠ 0)
    ∧ (∀ e e' : ConvertToOnlyNullError, e = e') := by
  refine ⟨?_, ?_, ?_, ?_, fun e e' => rfl⟩ <;>
    simp only [tryFromConst_eq, tryFromMut_eq] <;>
    by_cases h : p.addr = 0 <;> simp [h]

/-- C2 counterexample: the spec claims the fallible construction is
available for every pointee shape, but the mut-pointer `TryFrom` impl does
not cover the slice shape, since its `impl<T>` parameter carries the
implicit `Sized` bound. -/
theorem c2_counterexample : ¬ tryFromMutAvailable Shape.slice := by
  simp [tryFromMutAvailable, Shape.isSized]

/-- C2 amended: the fallible construction of an `OnlyNull<T>` from a raw
pointer (const or mut variant) is available exactly for statically sized
pointee shapes; dynamically sized shapes (slices, trait objects) are not
covered. -/
theorem c2_tryFrom_available_iff_sized (s : Shape) :
    (tryFromConstAvailable s ↔ s = Shape.sized)
    ∧ (tryFromMutAvailable s ↔ s = Shape.sized) := by
  cases s <;>
    simp [tryFromConstAvailable, tryFromMutAvailable, Shape.isSized]

/-- C3: the value `OnlyNull::null()` converted into a native raw pointer,
via the From conversion to a const pointer or to a mut pointer, equals the
language's null pointer constant. -/
theorem c3_null_into_raw_is_null_ptr :
    fromOnlyNullConst OnlyNull.null = nullPtr
    ∧ fromOnlyNullMut OnlyNull.null = nullMutPtr
    ∧ nullPtr.addr = 0 ∧ nullMutPtr.addr = 0 :=
  ⟨rfl, rfl, rfl, rfl⟩

/-- C4 counterexample: the spec claims construction from a null raw pointer
succeeds for every pointee shape, but the const-pointer `TryFrom` impl does
not cover the slice shape at all (implicit `Sized` bound on `impl<T>`). -/
theorem c4_counterexample : ¬ tryFromConstAvailable Shape.slice := by
  simp [tryFromConstAvailable, Shape.isSized]

/-- C4 amended: for sized pointees, the only shape whose raw-pointer
conversions exist, constructing an `OnlyNull<T>` from a null raw pointer
succeeds, and converting the result back into a raw pointer (const or mut)
yields a pointer equal to the original input, metadata preserved exactly. -/
theorem c4_null_roundtrip_sized (p : RawPtr Unit) (h : p.addr = 0) :
    ∃ v : OnlyNull Unit, tryFromConst p = Except.ok v
      ∧ fromOnlyNullConst v = p ∧ fromOnlyNullMut v = p
      ∧ v.meta = p.meta := by
  refine ⟨{ meta := p.meta }, ?_, ?_, ?_, rfl⟩
  · rw [tryFromConst_eq]
    simp [h]
  · cases p with
    | mk a m => cases m; simp_all [fromOnlyNullConst, nullPtr]
  · cases p with
    | mk a m => cases m; simp_all [fromOnlyNullMut, nullMutPtr]

/-- C4 witness: the round trip at the concrete null const pointer of a
sized pointee. -/
theorem c4_witness :
    nullPtr.addr = 0
    ∧ ∃ v : OnlyNull Unit, tryFromConst nullPtr = Except.ok v
      ∧ fromOnlyNullConst v = nullPtr ∧ fromOnlyNullMut v = nullPtr
      ∧ v.meta = nullPtr.meta :=
  ⟨rfl, c4_null_roundtrip_sized nullPtr rfl⟩

/-- C5: applying `cast` to a same-metadata target type and then casting
back returns a value equal to the original. -/
theorem c5_cast_roundtrip (M : Type) (v : OnlyNull M) :
    v.cast.cast = v :=
  rfl

/-- C6 counterexample: the concrete slice scenario cannot be carried out,
because neither the forward conversion (`TryFrom<*const [T]>`) nor the
reverse conversion (`From<OnlyNull<[T]>> for *const [T]`) is provided for
the slice shape. -/
theorem c6_counterexample :
    ¬ (tryFromConstAvailable Shape.slice ∧ fromConstAvailable Shape.slice) := by
  simp [tryFromConstAvailable, fromConstAvailable, Shape.isSized]

/-- C6 amended: the slice-typed conversions are not exposed, so the
length-7 scenario is not expressible; for a null raw pointer of a sized
type, conversion into the null-only representation and back out yields the
null raw pointer with its (unit) metadata unchanged. -/
theorem c6_sized_roundtrip_concrete :
    tryFromConst nullPtr = Except.ok OnlyNull.null
    ∧ fromOnlyNullConst OnlyNull.null = nullPtr
    ∧ ¬ fromConstAvailable Shape.slice := by
  refine ⟨?_, rfl, ?_⟩
  · rw [tryFromConst_eq]
    rfl
  · simp [fromConstAvailable, Shape.isSized]

/-- C7: `cast` stores exactly the same metadata value as its input; only
the type parameter changes. -/
theorem c7_cast_preserves_meta (M : Type) (v : OnlyNull M) :
    v.cast.meta = v.meta :=
  rfl

/-- C8: two `OnlyNull<T>` values built from the same metadata value compare
equal under the derived equality (whenever the metadata equality is
lawful), hash identically from any hasher state, and a copy equals the
original. -/
theorem c8_eq_hash_copy (M : Type) (eqM : M → M → Bool)
    (heq : ∀ x y : M, eqM x y = true ↔ x = y)
    (hM : M → Nat → Nat) (a b : OnlyNull M) (h : a.meta = b.meta) :
    OnlyNull.beqWith eqM a b = true
    ∧ (∀ state, OnlyNull.hashWith hM a state = OnlyNull.hashWith hM b state)
    ∧ a.copy = a ∧ a = b := by
  refine ⟨?_, ?_, rfl, ?_⟩
  · exact (heq a.meta b.meta).mpr h
  · intro state
    simp [OnlyNull.hashWith, h]
  · cases a
    cases b
    simp_all

/-- C8 witness: two slice-metadata values both built with length 7. -/
theorem c8_witness :
    OnlyNull.beqWith (fun x y : Nat => x == y) { meta := 7 } { meta := 7 } = true
    ∧ (∀ state, OnlyNull.hashWith (fun m s => m + s) ({ meta := 7 } : OnlyNull Nat) state
        = OnlyNull.hashWith (fun m s => m + s) { meta := 7 } state)
    ∧ OnlyNull.copy ({ meta := 7 } : OnlyNull Nat) = { meta := 7 }
    ∧ ({ meta := 7 } : OnlyNull Nat) = { meta := 7 } :=
  c8_eq_hash_copy Nat (fun x y => x == y) (fun x y => by simp)
    (fun m s => m + s) { meta := 7 } { meta := 7 } rfl

/-- C9: for sized pointees, whose metadata is the unit value with Rust
default `()`, the derived default of `OnlyNull<T>` equals the value built
by the `null()` constructor. -/
theorem c9_default_eq_null :
    OnlyNull.defaultWith () = OnlyNull.null :=
  rfl

/-- C10: the const-pointer and mut-pointer `try_from` implementations
behave identically: at the same address and metadata, both produce equal
results, so both succeed with equal values or both fail with the marker
error. -/
theorem c10_const_mut_tryFrom_agree (M : Type) (p : RawPtr M) :
    tryFromConst p = tryFromMut p :=
  rfl
